import Mathlib

/-!
Shallow embedding of the ExpenseSnap application core (`src/app.py`) and
proofs checking the natural-language specification against it.

Modelling conventions:
  * Monetary amounts and exchange rates are rationals (`ℚ`); Python's
    `round(x, 2)` is modelled by `round2` (round to nearest at two
    decimals).
  * SQL tables are lists of structures; `NULL` string columns are
    modelled by the empty string `""` (Python truthiness tests such as
    `if e['date']` become `≠ ""` tests).
  * The process-wide rate cache, the network fetch, the external vision
    extractor, and the HEIC/PDF decoders are effectful; each endpoint is
    embedded as a pure function over the relevant state, with the
    outcomes of external calls passed in as `Option` parameters
    (`none` = the call raised).
  * Endpoints return an `Except String` result paired with the updated
    table state, mirroring Flask's error-JSON-vs-success responses.
-/

/-- Exchange-rate table: currency code to USD-relative rate, modelling the
Python dict returned by `get_exchange_rates`. -/
abbrev RateTable := List (String × ℚ)

/-- Python's `round(x, 2)`: round to the nearest multiple of 1/100. -/
def round2 (q : ℚ) : ℚ := (round (q * 100) : ℤ) / 100

/-- The hardcoded fallback table from `get_exchange_rates` in `src/app.py`. -/
def fallback_rates : RateTable :=
  [("USD", 1), ("CAD", 1.36), ("EUR", 0.92), ("GBP", 0.79), ("INR", 83.5),
   ("AUD", 1.53), ("JPY", 149.5), ("CHF", 0.88), ("SGD", 1.34), ("AED", 3.67)]

/-- `get_exchange_rates` from `src/app.py`, as a function of the cache state
and the outcome of the network fetch.  `cache` is the current `_rate_cache`
dict; `fresh` captures the Python test
`_rate_cache_time and (datetime.now() - _rate_cache_time).seconds < 3600`;
`fetch` is the parsed `rates` field of the HTTP response (`none` = the
`urlopen`/`json.loads` call raised).  A nonempty fresh cache is returned
unchanged; otherwise the fetched table replaces the cache on success, and on
failure the hardcoded fallback replaces the cache — the inner
`except Exception` in the source assigns `_rate_cache` the fallback dict
without consulting the previous (stale) cache. -/
def get_exchange_rates (cache : RateTable) (fresh : Bool)
    (fetch : Option RateTable) : RateTable :=
  if cache ≠ [] ∧ fresh = true then cache
  else
    match fetch with
    | some data => data
    | none => fallback_rates

/-- `convert_currency` from `src/app.py`, with the rate table (the result of
`get_exchange_rates`) passed explicitly.  The same-currency / zero-amount
short-circuit happens before the table is consulted, exactly as in the
source. -/
def convert_currency (rates : RateTable) (amount : ℚ)
    (from_curr to_curr : String) : ℚ :=
  if from_curr = to_curr ∨ amount = 0 then round2 amount
  else
    let from_rate := (rates.lookup from_curr.toUpper).getD 1
    let to_rate := (rates.lookup to_curr.toUpper).getD 1
    let usd_amount := amount / from_rate
    round2 (usd_amount * to_rate)

/-- `rates.get(code.upper(), 1)`: the rate of a currency code, with the
case-uppercased lookup and the default of 1 for an absent code. -/
def rate_of (rates : RateTable) (code : String) : ℚ :=
  (rates.lookup code.toUpper).getD 1

theorem round2_near (q : ℚ) : |round2 q * 100 - q * 100| ≤ 1 / 2 := by
  have h : round2 q * 100 = ((round (q * 100) : ℤ) : ℚ) := by
    unfold round2; field_simp
  rw [h, abs_sub_comm]
  exact abs_sub_round (q * 100)

/-- A row of the `expenses` table (`init_db` in `src/app.py`); the
`created_at` timestamp column is not modelled.  `company_id = ""` models a
NULL company reference. -/
structure Expense where
  id : String
  date : String
  vendor : String
  location : String
  category : String
  subtotal : ℚ
  tax : ℚ
  tip : ℚ
  total : ℚ
  total_home : ℚ
  total_usd : ℚ
  payment_method : String
  currency : String
  items : String
  uploaded_by : String
  company_id : String
  receipt_image : String
deriving DecidableEq, Repr

/-- A row of the `users` table.  `company_id = ""` models NULL (the
super_admin's row). -/
structure User where
  id : String
  name : String
  email : String
  password_hash : String
  role : String
  company_id : String
deriving DecidableEq, Repr

/-- The Flask session fields the embedded endpoints read:
`session['user_id']`, `session['user_role']`, `session['company_id']`
(`""` models a NULL/absent company). -/
structure Session where
  user_id : String
  role : String
  company_id : String
deriving DecidableEq, Repr

/-- `is_super_admin` from `src/app.py`. -/
def is_super_admin (s : Session) : Bool := s.role = "super_admin"

/-- `is_company_admin` from `src/app.py`. -/
def is_company_admin (s : Session) : Bool :=
  s.role = "super_admin" ∨ s.role = "company_admin"

/-- The structured record parsed from the vision extractor's response
(the JSON object `extract_receipt` returns). -/
structure ReceiptData where
  date : String
  vendor : String
  location : String
  category : String
  subtotal : ℚ
  tax : ℚ
  tip : ℚ
  total : ℚ
  payment_method : String
  currency : String
  items : String
deriving DecidableEq, Repr

-- ── Team management ───────────────────────────────────────────────

/-- `remove_member` (`DELETE /api/team/<user_id>`) from `src/app.py`: admin
gate, self-removal gate, company-scope gate for non-super admins, then the
row deletion.  Returns the response and the updated `users` table. -/
def remove_member (sess : Session) (users : List User) (user_id : String) :
    Except String Unit × List User :=
  if ¬ is_company_admin sess then (.error "Admin access required", users)
  else if user_id = sess.user_id then (.error "Cannot remove yourself", users)
  else if ¬ is_super_admin sess then
    match users.find? (fun u => u.id = user_id) with
    | none => (.error "Access denied", users)
    | some u =>
      if u.company_id ≠ sess.company_id then (.error "Access denied", users)
      else (.ok (), users.filter (fun u => ¬ u.id = user_id))
  else (.ok (), users.filter (fun u => ¬ u.id = user_id))

/-- Python's `str.strip()`: drop leading and trailing whitespace. -/
def pystrip (s : String) : String :=
  ⟨((s.data.dropWhile Char.isWhitespace).reverse.dropWhile
      Char.isWhitespace).reverse⟩

/-- `reset_password` (`POST /api/team/<user_id>/reset-password`) from
`src/app.py`: admin gate, minimum-length gate on the stripped password,
company-scope gate for non-super admins, then
`UPDATE users SET password_hash=... WHERE id=...`.  The hash function
(`hashlib.sha256(...).hexdigest()` in the source) is abstracted as the
parameter `hash_pw`.  There is no self-identity gate in the source. -/
def reset_password (hash_pw : String → String) (sess : Session)
    (users : List User) (user_id : String) (password : String) :
    Except String Unit × List User :=
  let new_password := pystrip password
  if ¬ is_company_admin sess then (.error "Admin access required", users)
  else if new_password.length < 6 then
    (.error "Password must be at least 6 characters", users)
  else if ¬ is_super_admin sess then
    match users.find? (fun u => u.id = user_id) with
    | none => (.error "Access denied", users)
    | some u =>
      if u.company_id ≠ sess.company_id then (.error "Access denied", users)
      else (.ok (), users.map (fun u =>
        if u.id = user_id then { u with password_hash := hash_pw new_password } else u))
  else (.ok (), users.map (fun u =>
    if u.id = user_id then { u with password_hash := hash_pw new_password } else u))

-- ── Expense ledger ────────────────────────────────────────────────

/-- `delete_expense` (`DELETE /api/expenses/<expense_id>`) from
`src/app.py`: for a non-super-admin, the expense must exist and its
`company_id` must equal the session's; there is no role gate beyond
`login_required`.  Returns the response and the updated `expenses` table. -/
def delete_expense (sess : Session) (db : List Expense) (expense_id : String) :
    Except String Unit × List Expense :=
  if ¬ is_super_admin sess then
    match db.find? (fun e => e.id = expense_id) with
    | none => (.error "Access denied", db)
    | some exp =>
      if exp.company_id ≠ sess.company_id then (.error "Access denied", db)
      else (.ok (), db.filter (fun e => ¬ e.id = expense_id))
  else (.ok (), db.filter (fun e => ¬ e.id = expense_id))

/-- The JSON body of `PUT /api/expenses/<expense_id>`: each allow-listed
key is present (`some`) or absent (`none`); keys outside the allow-list are
never read by the handler. -/
structure UpdateData where
  date : Option String
  vendor : Option String
  location : Option String
  category : Option String
  subtotal : Option ℚ
  tax : Option ℚ
  tip : Option ℚ
  total : Option ℚ
  payment_method : Option String
  currency : Option String
  items : Option String
deriving DecidableEq, Repr

/-- The `fields` list built by `update_expense`'s loop over the eleven
allow-listed keys, in source order. -/
def present_keys (d : UpdateData) : List String :=
  (if d.date.isSome then ["date"] else []) ++
  (if d.vendor.isSome then ["vendor"] else []) ++
  (if d.location.isSome then ["location"] else []) ++
  (if d.category.isSome then ["category"] else []) ++
  (if d.subtotal.isSome then ["subtotal"] else []) ++
  (if d.tax.isSome then ["tax"] else []) ++
  (if d.tip.isSome then ["tip"] else []) ++
  (if d.total.isSome then ["total"] else []) ++
  (if d.payment_method.isSome then ["payment_method"] else []) ++
  (if d.currency.isSome then ["currency"] else []) ++
  (if d.items.isSome then ["items"] else [])

/-- The effect of the generated `UPDATE expenses SET ...` on one row. -/
def apply_update (d : UpdateData) (e : Expense) : Expense :=
  { e with
    date := d.date.getD e.date
    vendor := d.vendor.getD e.vendor
    location := d.location.getD e.location
    category := d.category.getD e.category
    subtotal := d.subtotal.getD e.subtotal
    tax := d.tax.getD e.tax
    tip := d.tip.getD e.tip
    total := d.total.getD e.total
    payment_method := d.payment_method.getD e.payment_method
    currency := d.currency.getD e.currency
    items := d.items.getD e.items }

/-- `update_expense` (`PUT /api/expenses/<expense_id>`) from `src/app.py`.
The handler builds `UPDATE expenses SET <fields> WHERE id=%s` from the
present allow-listed keys and executes it with no company/tenant condition;
when no allow-listed key is present the generated SQL has an empty SET
clause, which the database engine rejects as a syntax error — Flask
surfaces the uncaught exception as a 500 server error and the table is
untouched. -/
def update_expense (d : UpdateData) (db : List Expense) (expense_id : String) :
    Except String Unit × List Expense :=
  if present_keys d = [] then
    (.error "server error: UPDATE with empty SET clause", db)
  else
    (.ok (), db.map (fun e => if e.id = expense_id then apply_update d e else e))

-- ── Dashboard aggregation ─────────────────────────────────────────

/-- The month key computed per expense in `dashboard_data`:
`e['date'][:7] if e['date'] else 'Unknown'`. -/
def month_bucket (date : String) : String :=
  if date ≠ "" then date.take 7 else "Unknown"

/-- `d[k] = d.get(k, 0) + v` on a Python dict modelled as an
insertion-ordered association list. -/
def dict_add (m : List (String × ℚ)) (k : String) (v : ℚ) :
    List (String × ℚ) :=
  match m.lookup k with
  | some old => m.map (fun p => if p.1 = k then (p.1, old + v) else p)
  | none => m ++ [(k, v)]

/-- The `by_month` aggregation loop of `dashboard_data` in `src/app.py`
(over the caller-scoped expense list). -/
def dashboard_by_month (expenses : List Expense) : List (String × ℚ) :=
  expenses.foldl (fun acc e => dict_add acc (month_bucket e.date) e.total) []

-- ── Recalculation ─────────────────────────────────────────────────

/-- The per-row body of `recalculate_expenses`'s loop in `src/app.py`:
`bill_curr = (e['currency'] or 'USD').upper()`, then the two
`convert_currency` calls, then
`UPDATE expenses SET total_home=%s, total_usd=%s WHERE id=%s`.  Rows of
other companies are not selected by the `WHERE company_id=%s` query and are
left as they are. -/
def recalc_row (rates : RateTable) (home_currency : String)
    (company_id : String) (e : Expense) : Expense :=
  if e.company_id = company_id then
    let bill_curr := (if e.currency ≠ "" then e.currency else "USD").toUpper
    { e with
      total_home := convert_currency rates e.total bill_curr home_currency
      total_usd := convert_currency rates e.total bill_curr "USD" }
  else e

/-- `recalculate_expenses` (`POST /api/companies/<company_id>/recalculate`)
from `src/app.py`, after its authorization guards and the company lookup:
`home_currency` is the company's normalized home currency
(`comp.get('home_currency', 'USD') or 'USD'`), and every expense row of the
company gets its two converted-total columns overwritten. -/
def recalculate_expenses (rates : RateTable) (home_currency : String)
    (company_id : String) (db : List Expense) : List Expense :=
  db.map (recalc_row rates home_currency company_id)

-- ── Upload pipeline ───────────────────────────────────────────────

/-- The database write at the end of `upload_receipt`: home-currency
lookup (`companies` is the `(id, home_currency)` projection of the
`companies` table; a falsy session company skips the lookup), the two
`convert_currency` calls, and the `INSERT INTO expenses` row. -/
def upload_insert (rates : RateTable) (companies : List (String × String))
    (sess_company uploader expense_id img_file : String)
    (data : ReceiptData) (db : List Expense) :
    Except String ReceiptData × List Expense :=
  let bill_currency := data.currency.toUpper
  let home_currency :=
    if sess_company ≠ "" then
      match companies.lookup sess_company with
      | some hc => if hc ≠ "" then hc else "USD"
      | none => "USD"
    else "USD"
  let total := data.total
  let total_home := convert_currency rates total bill_currency home_currency
  let total_usd := convert_currency rates total bill_currency "USD"
  (.ok data,
   db ++ [{ id := expense_id, date := data.date, vendor := data.vendor,
            location := data.location, category := data.category,
            subtotal := data.subtotal, tax := data.tax, tip := data.tip,
            total := total, total_home := total_home, total_usd := total_usd,
            payment_method := data.payment_method, currency := bill_currency,
            items := data.items, uploaded_by := uploader,
            company_id := sess_company, receipt_image := img_file }])

/-- The tail of `upload_receipt` after HEIC conversion and best-effort
compression have settled the working extension `ext2`: the PDF
page-rendering branch (a render failure or a zero-page document raises
inside the `try` and returns 400 "Failed to read PDF"), the extraction
call (a raised call or unparsable response returns 500
"Failed to extract"), and finally the `INSERT` via `upload_insert`. -/
def upload_stage2 (rates : RateTable) (companies : List (String × String))
    (sess_company uploader expense_id img_id : String) (ext2 : String)
    (pdf_pages : Option Nat) (extract : Option ReceiptData)
    (db : List Expense) : Except String ReceiptData × List Expense :=
  if ext2 = ".pdf" then
    match pdf_pages with
    | none => (.error "Failed to read PDF", db)
    | some 0 => (.error "Failed to read PDF", db)
    | some (_ + 1) =>
      match extract with
      | none => (.error "Failed to extract", db)
      | some data =>
        upload_insert rates companies sess_company uploader expense_id
          (img_id ++ ".png") data db
  else
    match extract with
    | none => (.error "Failed to extract", db)
    | some data =>
      upload_insert rates companies sess_company uploader expense_id
        (img_id ++ ext2) data db

/-- `upload_receipt` (`POST /api/upload`) from `src/app.py`, as a function
of the outcomes of its external calls.  Parameters mirroring the source:
`ext` is the lowercased filename suffix; `file_size` the byte length of the
upload; `heic_decode` the Pillow HEIC re-encode (`none` = raised, the
handler returns 400 "Failed to convert HEIC"; `some sz` = success with the
re-encoded byte length, after which the working extension is `.jpg`);
`compress_ok` whether the best-effort large-image re-encode succeeded
(failure is swallowed and the original bytes are kept; success over the
1.5 MB threshold switches the working extension to `.jpg`); `pdf_pages`
and `extract` as in `upload_stage2`.  File-system writes of preview images
are outside the modelled state; the result pairs the response with the
`expenses` table, which the source only touches in the final `INSERT`. -/
def upload_receipt (rates : RateTable) (companies : List (String × String))
    (sess_company uploader : String) (ext : String) (file_size : Nat)
    (heic_decode : Option Nat) (compress_ok : Bool)
    (pdf_pages : Option Nat) (extract : Option ReceiptData)
    (expense_id img_id : String) (db : List Expense) :
    Except String ReceiptData × List Expense :=
  match (if ext = ".heic" ∨ ext = ".heif"
         then heic_decode.map (fun sz => (".jpg", sz))
         else some (ext, file_size)) with
  | none => (.error "Failed to convert HEIC", db)
  | some (ext1, size1) =>
    upload_stage2 rates companies sess_company uploader expense_id img_id
      (if ext1 ≠ ".pdf" ∧ size1 * 10 > 15 * 1024 * 1024 ∧ compress_ok
       then ".jpg" else ext1)
      pdf_pages extract db

-- ── External API ──────────────────────────────────────────────────

/-- `api_expenses_external` (`GET /api/expenses/external`) from
`src/app.py`: the `X-API-Key` header is looked up as a user email; a
super_admin may narrow by the `company_id` query argument; any other user's
scope is `company_id or user['company_id']` — the caller-supplied argument
takes precedence over the caller's own company — and with neither, the
first 100 rows are returned.  The SQL's `ORDER BY date DESC` and joined
company columns are not modelled; row membership is. -/
def api_expenses_external (users : List User) (db : List Expense)
    (api_key : String) (company_arg : String) :
    Except String (List Expense) :=
  if api_key = "" then .error "API key required"
  else
    match users.find? (fun u => u.email = api_key) with
    | none => .error "Invalid API key"
    | some user =>
      if user.role = "super_admin" then
        if company_arg ≠ "" then
          .ok (db.filter (fun e => e.company_id = company_arg))
        else .ok db
      else
        let cid := if company_arg ≠ "" then company_arg else user.company_id
        if cid ≠ "" then .ok (db.filter (fun e => e.company_id = cid))
        else .ok (db.take 100)

-- ── Sample rows used by concrete evaluations ──────────────────────

/-- A representative stored expense of company `c1`. -/
def eg_expense : Expense :=
  { id := "e1", date := "2024-03-15", vendor := "Cafe Uno",
    location := "Toronto, ON", category := "Food & Dining",
    subtotal := 10, tax := 1, tip := 2, total := 13,
    total_home := 13, total_usd := 13, payment_method := "Visa",
    currency := "USD", items := "Coffee (13.00)", uploaded_by := "alice",
    company_id := "c1", receipt_image := "img1.jpg" }

/-- A representative stored expense of a second company `c2`. -/
def eg_expense_c2 : Expense :=
  { eg_expense with id := "e2", vendor := "Bistro Deux", company_id := "c2",
                    uploaded_by := "bob", receipt_image := "img2.jpg" }

/-- A representative extractor result. -/
def eg_receipt : ReceiptData :=
  { date := "2024-03-15", vendor := "Cafe Uno", location := "Toronto, ON",
    category := "Food & Dining", subtotal := 10, tax := 1, tip := 2,
    total := 13, payment_method := "Visa", currency := "eur",
    items := "Coffee (13.00)" }

-- ═══════════════════════ Claim theorems ══════════════════════════

/-- Claim C5: for every nonzero amount `x` and currency pair `(A, B)` with
`A ≠ B`, `convert_currency` equals `round2 (x / rate(A) * rate(B))` where
`rate_of` looks up the case-uppercased code and defaults an absent code to
rate 1; the result is within half a unit of the last kept decimal of the
exact pivot value, i.e. rounding to nearest, not truncation. -/
theorem convert_pivot_formula (rates : RateTable) (x : ℚ) (A B : String)
    (hx : x ≠ 0) (hAB : A ≠ B) :
    convert_currency rates x A B =
      round2 (x / rate_of rates A * rate_of rates B) ∧
    |convert_currency rates x A B * 100 -
      (x / rate_of rates A * rate_of rates B) * 100| ≤ 1 / 2 := by
  have h : convert_currency rates x A B =
      round2 (x / rate_of rates A * rate_of rates B) := by
    unfold convert_currency rate_of
    rw [if_neg]
    push_neg
    exact ⟨hAB, hx⟩
  exact ⟨h, h ▸ round2_near _⟩

/-- Witness for C5 at `x = 100`, `A = "USD"`, `B = "EUR"` with the rate
table `[("EUR", 0.92)]`. -/
theorem convert_pivot_formula_check :
    convert_currency [("EUR", 0.92)] 100 "USD" "EUR" =
      round2 (100 / rate_of [("EUR", 0.92)] "USD" *
        rate_of [("EUR", 0.92)] "EUR") ∧
    |convert_currency [("EUR", 0.92)] 100 "USD" "EUR" * 100 -
      (100 / rate_of [("EUR", 0.92)] "USD" *
        rate_of [("EUR", 0.92)] "EUR") * 100| ≤ 1 / 2 :=
  convert_pivot_formula [("EUR", 0.92)] 100 "USD" "EUR"
    (by norm_num) (by decide)

/-- Claim C6: `convert_currency rates x C C = round2 x` and
`convert_currency rates 0 A B = 0`, and in both cases the result does not
depend on the rate table at all (no table is consulted, no fetch needed). -/
theorem convert_identity_and_zero (rates rates2 : RateTable) (x : ℚ)
    (C A B : String) :
    convert_currency rates x C C = round2 x ∧
    convert_currency rates 0 A B = 0 ∧
    convert_currency rates x C C = convert_currency rates2 x C C ∧
    convert_currency rates 0 A B = convert_currency rates2 0 A B := by
  have h1 : ∀ r : RateTable, convert_currency r x C C = round2 x := by
    intro r; unfold convert_currency; rw [if_pos (Or.inl rfl)]
  have h2 : ∀ r : RateTable, convert_currency r 0 A B = 0 := by
    intro r
    unfold convert_currency
    rw [if_pos (Or.inr rfl)]
    simp [round2]
  exact ⟨h1 rates, h2 rates, (h1 rates).trans (h1 rates2).symm,
    (h2 rates).trans (h2 rates2).symm⟩

/-- Counterexample to C9 as stated: with a stale cached table
`[("EUR", 2)]` present and the fetch failing, `get_exchange_rates` returns
the hardcoded fallback table, not the previously cached table. -/
theorem stale_cache_not_preferred :
    get_exchange_rates [("EUR", 2)] false none = fallback_rates ∧
    get_exchange_rates [("EUR", 2)] false none ≠ [("EUR", 2)] := by
  refine ⟨rfl, ?_⟩
  decide

/-- Claim C9 (amended): for every fetch outcome the rate accessor returns
a table — a nonempty fresh cache is returned without fetching, a stale or
empty cache is replaced by the freshly fetched table when the fetch
succeeds, and on fetch failure the fixed hardcoded fallback is used; in
particular, when the cache is stale (`fresh = false`) a failed fetch
yields the hardcoded fallback even though a cached table exists, rather
than the stale cache.  `convert_currency` over the returned table is
therefore total — it never sees a fetch error. -/
theorem rate_fetch_failure_degrades (cache : RateTable) (fresh : Bool)
    (fetch : Option RateTable) (x : ℚ) (A B : String) :
    (fetch = none →
      (get_exchange_rates cache fresh fetch = cache ∨
       get_exchange_rates cache fresh fetch = fallback_rates) ∧
      (fresh = false →
        get_exchange_rates cache fresh fetch = fallback_rates) ∧
      convert_currency (get_exchange_rates cache fresh fetch) x A B =
        convert_currency
          (if cache ≠ [] ∧ fresh = true then cache else fallback_rates)
          x A B) ∧
    (cache ≠ [] ∧ fresh = true →
      get_exchange_rates cache fresh fetch = cache) ∧
    (∀ t, fetch = some t → ¬(cache ≠ [] ∧ fresh = true) →
      get_exchange_rates cache fresh fetch = t) := by
  refine ⟨?_, ?_, ?_⟩
  · intro hfail
    subst hfail
    unfold get_exchange_rates
    by_cases h : cache ≠ [] ∧ fresh = true
    · rw [if_pos h]
      refine ⟨Or.inl rfl, ?_, rfl⟩
      intro hf
      rw [hf] at h
      exact absurd h.2 (by decide)
    · rw [if_neg h]
      exact ⟨Or.inr rfl, fun _ => rfl, rfl⟩
  · intro h
    unfold get_exchange_rates
    rw [if_pos h]
  · intro t hft hnot
    subst hft
    unfold get_exchange_rates
    rw [if_neg hnot]

/-- Witness for C9's amended theorem: a stale nonempty cache with a failed
fetch (fallback used), a fresh nonempty cache with a successful fetch
(cache kept, no refresh), and an empty cache with a successful fetch
(fetched table used). -/
theorem rate_fetch_failure_degrades_check :
    ((get_exchange_rates [("EUR", 2)] false none = [("EUR", 2)] ∨
      get_exchange_rates [("EUR", 2)] false none = fallback_rates) ∧
     (false = false →
       get_exchange_rates [("EUR", 2)] false none = fallback_rates) ∧
     convert_currency (get_exchange_rates [("EUR", 2)] false none)
         7 "USD" "EUR" =
       convert_currency
         (if ([("EUR", 2)] : RateTable) ≠ [] ∧ false = true
          then [("EUR", 2)] else fallback_rates) 7 "USD" "EUR") ∧
    get_exchange_rates [("EUR", 2)] true (some [("JPY", 150)]) =
      [("EUR", 2)] ∧
    get_exchange_rates [] false (some [("JPY", 150)]) = [("JPY", 150)] :=
  ⟨(rate_fetch_failure_degrades [("EUR", 2)] false none 7 "USD" "EUR").1 rfl,
   (rate_fetch_failure_degrades [("EUR", 2)] true (some [("JPY", 150)])
      7 "USD" "EUR").2.1 ⟨by decide, rfl⟩,
   (rate_fetch_failure_degrades [] false (some [("JPY", 150)])
      7 "USD" "EUR").2.2 [("JPY", 150)] rfl (by decide)⟩


/-- Counterexample to C4 as stated: an expense with the malformed,
nonempty date `"not-a-date"` is bucketed under the literal prefix
`"not-a-d"`, not under `"Unknown"`. -/
theorem malformed_date_not_unknown :
    month_bucket "not-a-date" = "not-a-d" ∧
    month_bucket "not-a-date" ≠ "Unknown" ∧
    dashboard_by_month [{ eg_expense with date := "not-a-date" }] =
      [("not-a-d", 13)] := by
  refine ⟨rfl, by decide, rfl⟩

/-- Claim C4 (amended): the dashboard buckets every expense whose date
string is nonempty — well-formed or malformed — under the literal leading
7 characters of the date (`"2024-03-15"` goes to `"2024-03"`), and only an
empty date is bucketed as `"Unknown"`. -/
theorem month_bucket_first_seven (d : String) (e : Expense) (hd : d ≠ "") :
    month_bucket d = d.take 7 ∧
    month_bucket "" = "Unknown" ∧
    month_bucket "2024-03-15" = "2024-03" ∧
    dashboard_by_month [e] = [(month_bucket e.date, e.total)] := by
  refine ⟨?_, rfl, rfl, rfl⟩
  unfold month_bucket
  rw [if_pos hd]

/-- Witness for C4's amended theorem at the nonempty date `"2024-03-15"`. -/
theorem month_bucket_first_seven_check :
    month_bucket "2024-03-15" = String.take "2024-03-15" 7 ∧
    month_bucket "" = "Unknown" ∧
    month_bucket "2024-03-15" = "2024-03" ∧
    dashboard_by_month [eg_expense] = [(month_bucket eg_expense.date, eg_expense.total)] :=
  month_bucket_first_seven "2024-03-15" eg_expense (by decide)

/-- Counterexample to C2 as stated: a company_admin invoking the
team-management reset-password operation on their own user id is not
rejected — the call succeeds and overwrites the caller's own password
hash. -/
theorem self_password_reset_succeeds :
    (reset_password (fun p => p ++ "#h") ⟨"u1", "company_admin", "c1"⟩
        [{ id := "u1", name := "Alice", email := "alice@one.test",
           password_hash := "oldhash", role := "company_admin",
           company_id := "c1" }] "u1" "secret99").1 = .ok () ∧
    (reset_password (fun p => p ++ "#h") ⟨"u1", "company_admin", "c1"⟩
        [{ id := "u1", name := "Alice", email := "alice@one.test",
           password_hash := "oldhash", role := "company_admin",
           company_id := "c1" }] "u1" "secret99").2 =
      [{ id := "u1", name := "Alice", email := "alice@one.test",
         password_hash := "secret99#h", role := "company_admin",
         company_id := "c1" }] ∧
    ("secret99#h" : String) ≠ "oldhash" := by
  refine ⟨rfl, rfl, by decide⟩

theorem reset_is_self_hash_update (hash_pw : String → String) (sess : Session)
    (users : List User) (pw : String) (h1 : is_company_admin sess = true)
    (h2 : 6 ≤ (pystrip pw).length)
    (h3 : sess.role = "super_admin" ∨
      ∃ u, users.find? (fun v => v.id = sess.user_id) = some u ∧
        u.company_id = sess.company_id) :
    reset_password hash_pw sess users sess.user_id pw =
      (.ok (), users.map (fun u =>
        if u.id = sess.user_id
        then { u with password_hash := hash_pw (pystrip pw) } else u)) := by
  unfold reset_password
  rw [if_neg (not_not_intro h1), if_neg (not_lt.mpr h2)]
  by_cases hs : is_super_admin sess = true
  · rw [if_neg (not_not_intro hs)]
  · rw [if_pos hs]
    rcases h3 with hrole | ⟨u, hfind, hcomp⟩
    · exact absurd (by simp [is_super_admin, hrole]) hs
    · simp only [hfind]
      rw [if_neg (not_not_intro hcomp)]

/-- Claim C2 (amended): the remove-member operation rejects the caller's
own id (error, `users` table untouched, so the caller's row and password
hash are unchanged); the reset-password operation has no self-check — for
a caller passing its own id with a valid password (and, for a non-super
admin, a matching own-company row), it succeeds and overwrites the
caller's own password hash. -/
theorem self_protection_remove_only (hash_pw : String → String)
    (sess : Session) (users : List User) (pw : String)
    (h1 : is_company_admin sess = true) (h2 : 6 ≤ (pystrip pw).length)
    (h3 : sess.role = "super_admin" ∨
      ∃ u, users.find? (fun v => v.id = sess.user_id) = some u ∧
        u.company_id = sess.company_id) :
    remove_member sess users sess.user_id =
      (.error "Cannot remove yourself", users) ∧
    (reset_password hash_pw sess users sess.user_id pw).1 = .ok () ∧
    (reset_password hash_pw sess users sess.user_id pw).2 =
      users.map (fun u =>
        if u.id = sess.user_id
        then { u with password_hash := hash_pw (pystrip pw) }
        else u) := by
  have hr := reset_is_self_hash_update hash_pw sess users pw h1 h2 h3
  refine ⟨?_, ?_, ?_⟩
  · unfold remove_member
    rw [if_neg (not_not_intro h1), if_pos rfl]
  · rw [hr]
  · rw [hr]

/-- Witness for C2's amended theorem: a super_admin session acting on its
own id. -/
theorem self_protection_remove_only_check :
    remove_member ⟨"u0", "super_admin", ""⟩
        [{ id := "u0", name := "Root", email := "root@x.test",
           password_hash := "rh", role := "super_admin", company_id := "" }]
        "u0" =
      (.error "Cannot remove yourself",
        [{ id := "u0", name := "Root", email := "root@x.test",
           password_hash := "rh", role := "super_admin", company_id := "" }]) ∧
    (reset_password (fun p => p ++ "#h") ⟨"u0", "super_admin", ""⟩
        [{ id := "u0", name := "Root", email := "root@x.test",
           password_hash := "rh", role := "super_admin", company_id := "" }]
        "u0" "secret99").1 = .ok () ∧
    (reset_password (fun p => p ++ "#h") ⟨"u0", "super_admin", ""⟩
        [{ id := "u0", name := "Root", email := "root@x.test",
           password_hash := "rh", role := "super_admin", company_id := "" }]
        "u0" "secret99").2 =
      List.map (fun u =>
        if u.id = "u0"
        then { u with password_hash := (fun p => p ++ "#h") (pystrip "secret99") }
        else u)
        [{ id := "u0", name := "Root", email := "root@x.test",
           password_hash := "rh", role := "super_admin", company_id := "" }] :=
  self_protection_remove_only (fun p => p ++ "#h")
    ⟨"u0", "super_admin", ""⟩
    [{ id := "u0", name := "Root", email := "root@x.test",
       password_hash := "rh", role := "super_admin", company_id := "" }]
    "secret99" (by decide) (by decide) (Or.inl rfl)

/-- Counterexample to C3 as stated: a caller with role `member` (not an
admin) of the expense's owning company successfully deletes the expense —
the operation is not rejected and the row is removed. -/
theorem member_delete_succeeds :
    is_company_admin ⟨"u2", "member", "c1"⟩ = false ∧
    delete_expense ⟨"u2", "member", "c1"⟩ [eg_expense] "e1" =
      (.ok (), []) := by
  exact ⟨rfl, rfl⟩

/-- Claim C3 (amended): `delete_expense` is company-scoped but not
role-scoped — a non-super-admin caller is denied (table unchanged) exactly
when the expense is missing or owned by a different company; the deletion
succeeds for the super_admin, and for any caller of the owning company
regardless of role (members included). -/
theorem delete_expense_company_scoped (sess : Session) (db : List Expense)
    (eid : String) :
    (¬ is_super_admin sess = true →
      db.find? (fun e => e.id = eid) = none →
      delete_expense sess db eid = (.error "Access denied", db)) ∧
    (¬ is_super_admin sess = true → ∀ exp,
      db.find? (fun e => e.id = eid) = some exp →
      exp.company_id ≠ sess.company_id →
      delete_expense sess db eid = (.error "Access denied", db)) ∧
    (¬ is_super_admin sess = true → ∀ exp,
      db.find? (fun e => e.id = eid) = some exp →
      exp.company_id = sess.company_id →
      delete_expense sess db eid =
        (.ok (), db.filter (fun e => ¬ e.id = eid))) ∧
    (is_super_admin sess = true →
      delete_expense sess db eid =
        (.ok (), db.filter (fun e => ¬ e.id = eid))) := by
  refine ⟨?_, ?_, ?_, ?_⟩
  · intro hs hnone
    unfold delete_expense
    rw [if_pos hs]
    simp only [hnone]
  · intro hs exp hfind hne
    unfold delete_expense
    rw [if_pos hs]
    simp only [hfind]
    rw [if_pos hne]
  · intro hs exp hfind heq
    unfold delete_expense
    rw [if_pos hs]
    simp only [hfind]
    rw [if_neg (not_not_intro heq)]
  · intro hs
    unfold delete_expense
    rw [if_neg (not_not_intro hs)]

/-- Witness for C3's amended theorem: a member of `c1` is denied on `c2`'s
expense, and allowed on `c1`'s own expense. -/
theorem delete_expense_company_scoped_check :
    delete_expense ⟨"u2", "member", "c1"⟩ [eg_expense, eg_expense_c2] "e2" =
      (.error "Access denied", [eg_expense, eg_expense_c2]) ∧
    delete_expense ⟨"u2", "member", "c1"⟩ [eg_expense, eg_expense_c2] "e1" =
      (.ok (), [eg_expense_c2]) := by
  constructor
  · exact (delete_expense_company_scoped ⟨"u2", "member", "c1"⟩
      [eg_expense, eg_expense_c2] "e2").2.1 (by decide) eg_expense_c2
      (by decide) (by decide)
  · have h := (delete_expense_company_scoped ⟨"u2", "member", "c1"⟩
      [eg_expense, eg_expense_c2] "e1").2.2.1 (by decide) eg_expense
      (by decide) (by decide)
    rw [h]
    rfl

theorem recalc_row_idem (rates : RateTable) (home cid : String)
    (e : Expense) :
    recalc_row rates home cid (recalc_row rates home cid e) =
      recalc_row rates home cid e := by
  unfold recalc_row
  by_cases hc : e.company_id = cid
  · simp [hc]
  · simp [hc]

/-- Claim C7: `recalculate_expenses` rewrites each row of the targeted
company by `recalc_row`, which changes only the `total_home` and
`total_usd` columns and leaves a row of any other company entirely
untouched; and with unchanged rates and home currency it is idempotent —
a second pass produces exactly the table the first pass produced. -/
theorem recalculate_idempotent_and_scoped (rates : RateTable)
    (home cid : String) (db : List Expense) :
    recalculate_expenses rates home cid (recalculate_expenses rates home cid db) =
      recalculate_expenses rates home cid db ∧
    recalculate_expenses rates home cid db =
      db.map (recalc_row rates home cid) ∧
    ∀ e : Expense,
      (e.company_id ≠ cid → recalc_row rates home cid e = e) ∧
      (recalc_row rates home cid e).id = e.id ∧
      (recalc_row rates home cid e).date = e.date ∧
      (recalc_row rates home cid e).vendor = e.vendor ∧
      (recalc_row rates home cid e).location = e.location ∧
      (recalc_row rates home cid e).category = e.category ∧
      (recalc_row rates home cid e).subtotal = e.subtotal ∧
      (recalc_row rates home cid e).tax = e.tax ∧
      (recalc_row rates home cid e).tip = e.tip ∧
      (recalc_row rates home cid e).total = e.total ∧
      (recalc_row rates home cid e).payment_method = e.payment_method ∧
      (recalc_row rates home cid e).currency = e.currency ∧
      (recalc_row rates home cid e).items = e.items ∧
      (recalc_row rates home cid e).uploaded_by = e.uploaded_by ∧
      (recalc_row rates home cid e).company_id = e.company_id ∧
      (recalc_row rates home cid e).receipt_image = e.receipt_image := by
  refine ⟨?_, rfl, ?_⟩
  · unfold recalculate_expenses
    rw [List.map_map]
    have hff : recalc_row rates home cid ∘ recalc_row rates home cid =
        recalc_row rates home cid :=
      funext (fun e => recalc_row_idem rates home cid e)
    rw [hff]
  · intro e
    unfold recalc_row
    by_cases hc : e.company_id = cid
    · simp [hc]
    · simp [hc]

/-- Witness for C7: a two-company table; the `c2` row is returned
identically. -/
theorem recalculate_idempotent_and_scoped_check :
    recalculate_expenses [("EUR", 0.92)] "USD" "c1"
        (recalculate_expenses [("EUR", 0.92)] "USD" "c1"
          [eg_expense, eg_expense_c2]) =
      recalculate_expenses [("EUR", 0.92)] "USD" "c1"
        [eg_expense, eg_expense_c2] ∧
    recalc_row [("EUR", 0.92)] "USD" "c1" eg_expense_c2 = eg_expense_c2 :=
  ⟨(recalculate_idempotent_and_scoped [("EUR", 0.92)] "USD" "c1"
      [eg_expense, eg_expense_c2]).1,
   ((recalculate_idempotent_and_scoped [("EUR", 0.92)] "USD" "c1"
      [eg_expense, eg_expense_c2]).2.2 eg_expense_c2).1 (by decide)⟩

theorem upload_stage2_extract_none (rates : RateTable)
    (companies : List (String × String))
    (sess_company uploader expense_id img_id ext2 : String)
    (pdf_pages : Option Nat) (db : List Expense) :
    (upload_stage2 rates companies sess_company uploader expense_id img_id
        ext2 pdf_pages none db).2 = db ∧
    ∃ msg, (upload_stage2 rates companies sess_company uploader expense_id
        img_id ext2 pdf_pages none db).1 = .error msg := by
  unfold upload_stage2
  by_cases hp : ext2 = ".pdf"
  · rw [if_pos hp]
    rcases pdf_pages with _ | (_ | m)
    · exact ⟨rfl, _, rfl⟩
    · exact ⟨rfl, _, rfl⟩
    · exact ⟨rfl, _, rfl⟩
  · rw [if_neg hp]
    exact ⟨rfl, _, rfl⟩

/-- Claim C8: when normalization fails (HEIC decode failure on a
`.heic`/`.heif` upload, or PDF open/parse failure on a `.pdf` upload) or
extraction fails (external call error or unparsable response),
`upload_receipt` returns a terminal error and the `expenses` table is
returned exactly as it was — no row is written. -/
theorem upload_failure_writes_no_row (rates : RateTable)
    (companies : List (String × String)) (sess_company uploader : String)
    (ext : String) (file_size : Nat) (heic_decode : Option Nat)
    (compress_ok : Bool) (pdf_pages : Option Nat)
    (extract : Option ReceiptData) (expense_id img_id : String)
    (db : List Expense)
    (h : ((ext = ".heic" ∨ ext = ".heif") ∧ heic_decode = none) ∨
         (ext = ".pdf" ∧ pdf_pages = none) ∨ extract = none) :
    (upload_receipt rates companies sess_company uploader ext file_size
        heic_decode compress_ok pdf_pages extract expense_id img_id db).2 =
      db ∧
    ∃ msg, (upload_receipt rates companies sess_company uploader ext
        file_size heic_decode compress_ok pdf_pages extract expense_id
        img_id db).1 = .error msg := by
  rcases h with ⟨hext | hext, hnone⟩ | ⟨hext, hnone⟩ | hnone
  · subst hext hnone
    exact ⟨rfl, _, rfl⟩
  · subst hext hnone
    exact ⟨rfl, _, rfl⟩
  · subst hext hnone
    exact ⟨rfl, _, rfl⟩
  · subst hnone
    unfold upload_receipt
    by_cases h1 : ext = ".heic" ∨ ext = ".heif"
    · rw [if_pos h1]
      cases heic_decode with
      | none => exact ⟨rfl, _, rfl⟩
      | some sz =>
        exact upload_stage2_extract_none rates companies sess_company
          uploader expense_id img_id _ pdf_pages db
    · rw [if_neg h1]
      exact upload_stage2_extract_none rates companies sess_company
        uploader expense_id img_id _ pdf_pages db

/-- Witness for C8: a PDF upload whose `fitz.open` raised; the stored table
is unchanged and the response is an error. -/
theorem upload_failure_writes_no_row_check :
    (upload_receipt [("EUR", 0.92)] [("c1", "CAD")] "c1" "alice" ".pdf" 1000
        none true none (some eg_receipt) "e9" "img9" [eg_expense]).2 =
      [eg_expense] ∧
    ∃ msg, (upload_receipt [("EUR", 0.92)] [("c1", "CAD")] "c1" "alice"
        ".pdf" 1000 none true none (some eg_receipt) "e9" "img9"
        [eg_expense]).1 = .error msg :=
  upload_failure_writes_no_row [("EUR", 0.92)] [("c1", "CAD")] "c1" "alice"
    ".pdf" 1000 none true none (some eg_receipt) "e9" "img9" [eg_expense]
    (Or.inr (Or.inl ⟨rfl, rfl⟩))

/-- Claim C10: an update request containing none of the eleven
allow-listed keys makes `update_expense` build an UPDATE statement with an
empty SET clause, which fails as a server error (not a validation
rejection, not a successful no-op), leaving the table unchanged. -/
theorem empty_update_is_server_error (d : UpdateData) (db : List Expense)
    (eid : String)
    (h : d.date = none ∧ d.vendor = none ∧ d.location = none ∧
         d.category = none ∧ d.subtotal = none ∧ d.tax = none ∧
         d.tip = none ∧ d.total = none ∧ d.payment_method = none ∧
         d.currency = none ∧ d.items = none) :
    present_keys d = [] ∧
    (update_expense d db eid).1 =
      .error "server error: UPDATE with empty SET clause" ∧
    (update_expense d db eid).2 = db := by
  obtain ⟨h1, h2, h3, h4, h5, h6, h7, h8, h9, h10, h11⟩ := h
  have hk : present_keys d = [] := by
    simp [present_keys, h1, h2, h3, h4, h5, h6, h7, h8, h9, h10, h11]
  refine ⟨hk, ?_, ?_⟩
  · unfold update_expense
    rw [if_pos hk]
  · unfold update_expense
    rw [if_pos hk]

/-- Witness for C10: the all-absent update body against a one-row table. -/
theorem empty_update_is_server_error_check :
    present_keys ⟨none, none, none, none, none, none, none, none, none,
      none, none⟩ = [] ∧
    (update_expense ⟨none, none, none, none, none, none, none, none, none,
      none, none⟩ [eg_expense] "e1").1 =
      .error "server error: UPDATE with empty SET clause" ∧
    (update_expense ⟨none, none, none, none, none, none, none, none, none,
      none, none⟩ [eg_expense] "e1").2 = [eg_expense] :=
  empty_update_is_server_error
    ⟨none, none, none, none, none, none, none, none, none, none, none⟩
    [eg_expense] "e1"
    ⟨rfl, rfl, rfl, rfl, rfl, rfl, rfl, rfl, rfl, rfl, rfl⟩

/-- Claim C1 (code bug shown on a concrete state): a caller whose identity
is a `member` of company `c1` obtains company `c2`'s expense rows through
the external listing endpoint by supplying `company_id=c2` (no
access-denied error), and the field-level update endpoint modifies company
`c2`'s expense row for any logged-in caller without any tenant check —
contradicting both the spec's tenant-isolation invariant and the source's
own header comment ("isolated data"). -/
theorem tenant_isolation_hole :
    api_expenses_external
        [{ id := "u9", name := "Mallory", email := "mallory@one.test",
           password_hash := "mh", role := "member", company_id := "c1" }]
        [eg_expense, eg_expense_c2] "mallory@one.test" "c2" =
      .ok [eg_expense_c2] ∧
    (update_expense
        { date := none, vendor := some "evil", location := none,
          category := none, subtotal := none, tax := none, tip := none,
          total := none, payment_method := none, currency := none,
          items := none }
        [eg_expense, eg_expense_c2] "e2").1 = .ok () ∧
    (update_expense
        { date := none, vendor := some "evil", location := none,
          category := none, subtotal := none, tax := none, tip := none,
          total := none, payment_method := none, currency := none,
          items := none }
        [eg_expense, eg_expense_c2] "e2").2 =
      [eg_expense, { eg_expense_c2 with vendor := "evil" }] := by
  exact ⟨rfl, rfl, rfl⟩
